import Mathlib

/-!
Verification of the AURA backend core (connection graph, similarity scorer,
candidate ranker, feed aggregator) against its natural-language specification.

The definitions below are a shallow embedding of the JavaScript source:

* `src/src/app.js` — `recordSwipe`, `getSwipedUserFids`, `getRequestsSent`,
  `getRequestsReceived`, `getUserMatches`, `checkIfMatched`,
  `arrayIntersection`, `calculateMatchScore`, `getMatchingUsers`;
* `src/src/services/feedService.js` — `fetchCastsFromFids`,
  `parseCastTimestamp`, `getConnectedUsersFeed`, `getFeed`.

Conventions of the embedding:

* The Supabase `user_swipes` table is a `List SwipeRow`; its unique
  constraint on `(user_fid, target_fid)` (the `onConflict` key of the
  upsert) is realised by `upsertSwipe`, which overwrites every row of the
  pair in place or appends a fresh row.
* JavaScript numbers that carry scores are modelled as `ℚ` (the score
  arithmetic here stays well inside the range where IEEE doubles are
  exact enough for the claims: small integer counts, halves and
  hundredths).  `Math.round` is round-half-up, `jsRound`.
* JS falsiness of strings (`null`/`undefined`/`""`) is modelled by the
  empty string (for persona categorical fields) or by `Option` plus an
  explicit `""` check (for cast hashes); falsiness of numbers is a `= 0`
  check where the source uses `!fid`.
* External effects (Supabase errors, the Neynar HTTP fetch, `Date`
  parsing, base64/JSON cursor codecs, `Math.random` shuffling) are
  injected: fallible calls return `Except String`, the feed fetch is an
  oracle parameter, timestamps arrive pre-parsed as `Option Int`
  (`none` ≙ absent or unparsable), the pagination cursor is the decoded
  payload (`FeedCursor.valid offset timestamp` stands for
  `base64(JSON {offset, timestamp})`, `FeedCursor.invalid` for any
  undecodable token), and the backfill shuffle is an arbitrary
  permutation-producing function.
-/

namespace Aura

/-! ## Action store (`user_swipes` table) and connection graph, from `src/src/app.js` -/

/-- One row of the `user_swipes` table: a directional like/reject. -/
structure SwipeRow where
  user_fid : Nat
  target_fid : Nat
  action : String
  created_at : Nat
  updated_at : Nat
  deriving Repr, DecidableEq

/-- The `user_swipes` table. -/
abbrev SwipeStore := List SwipeRow

/-- Supabase `upsert` with `onConflict: 'user_fid,target_fid'`: overwrite the
action (and `updated_at`) of any existing row for the ordered pair, else
insert a fresh row. -/
def upsertSwipe (st : SwipeStore) (u t : Nat) (a : String) (now : Nat) : SwipeStore :=
  if st.any (fun r => r.user_fid == u && r.target_fid == t) then
    st.map (fun r =>
      if r.user_fid == u && r.target_fid == t then
        { r with action := a, updated_at := now }
      else r)
  else
    st ++ [⟨u, t, a, now, now⟩]

/-- `recordSwipe` (app.js 805–839): validates the action kind and
self-swipes, then upserts the row. -/
def recordSwipe (st : SwipeStore) (userFid targetFid : Nat) (action : String)
    (now : Nat) : Except String SwipeStore :=
  if action ≠ "like" ∧ action ≠ "reject" then
    .error "Failed to record swipe: Action must be either \"like\" or \"reject\""
  else if userFid = targetFid then
    .error "Failed to record swipe: User cannot swipe on themselves"
  else
    .ok (upsertSwipe st userFid targetFid action now)

/-- `getSwipedUserFids` (app.js 846–861): all targets the user has swiped on
(either kind). -/
def getSwipedUserFids (st : SwipeStore) (userFid : Nat) : List Nat :=
  (st.filter (fun r => r.user_fid == userFid)).map (·.target_fid)

/-- `getUserMatches` (app.js 969–1006): fids the user liked who liked the
user back. -/
def getUserMatches (st : SwipeStore) (userFid : Nat) : List Nat :=
  let userLikes := st.filter (fun r => r.user_fid == userFid && r.action == "like")
  if userLikes.length = 0 then []
  else
    let likedFids := userLikes.map (·.target_fid)
    let mutualLikes := st.filter (fun r =>
      likedFids.contains r.user_fid && r.target_fid == userFid && r.action == "like")
    mutualLikes.map (·.user_fid)

/-- `checkIfMatched` (app.js 1014–1047): both directions hold a like row. -/
def checkIfMatched (st : SwipeStore) (userFid1 userFid2 : Nat) : Bool :=
  (st.any (fun r => r.user_fid == userFid1 && r.target_fid == userFid2 && r.action == "like"))
    && (st.any (fun r => r.user_fid == userFid2 && r.target_fid == userFid1 && r.action == "like"))

/-- `getRequestsSent` (app.js 868–903): users I liked, minus mutual matches,
as `(fid, created_at)` pairs. -/
def getRequestsSent (st : SwipeStore) (userFid : Nat) : List (Nat × Nat) :=
  let userLikes := st.filter (fun r => r.user_fid == userFid && r.action == "like")
  if userLikes.length = 0 then []
  else
    let matchedFids := getUserMatches st userFid
    (userLikes.filter (fun r => !(matchedFids.contains r.target_fid))).map
      (fun r => (r.target_fid, r.created_at))

/-- `getRequestsReceived` (app.js 910–962): users who liked me, minus those I
liked back, minus mutual matches, as `(fid, created_at)` pairs. -/
def getRequestsReceived (st : SwipeStore) (userFid : Nat) : List (Nat × Nat) :=
  let receivedLikes := st.filter (fun r => r.target_fid == userFid && r.action == "like")
  if receivedLikes.length = 0 then []
  else
    let likedByFids := receivedLikes.map (·.user_fid)
    let matchedFids := getUserMatches st userFid
    let myLikes := st.filter (fun r =>
      r.user_fid == userFid && r.action == "like" && likedByFids.contains r.target_fid)
    let myLikedFids := myLikes.map (·.target_fid)
    (receivedLikes.filter (fun r =>
      !(myLikedFids.contains r.user_fid) && !(matchedFids.contains r.user_fid))).map
      (fun r => (r.user_fid, r.created_at))

/-! ## Similarity scorer, from `src/src/app.js`
(`arrayIntersection` 1223–1234, `calculateMatchScore` 1242–1340) -/

/-- A persona row (`user_personas` table): bounded string sets per category
plus two single-valued categorical fields.  The empty string models a JS
falsy (`null`/`undefined`/`""`) categorical field; absent arrays are the
empty list (the source normalises them with `|| []`). -/
structure Persona where
  farcaster_fid : Nat
  core_interests : List String := []
  projects_protocols : List String := []
  expertise_level : String := ""
  engagement_style : String := ""
  content_themes : List String := []
  top_channels : List String := []
  summary : String := ""
  deriving Repr, DecidableEq

/-- `String.prototype.toLowerCase` (per-character lowering; the personas'
ASCII keywords are unaffected by Unicode special cases). -/
def jsToLower (s : String) : String := String.mk (s.data.map Char.toLower)

/-- `arrayIntersection` (app.js 1223–1234): elements of `arr1` whose
lowercase form occurs (lowercased) in `arr2`; `[]` if either side is empty. -/
def arrayIntersection (arr1 arr2 : List String) : List String :=
  if arr1.length = 0 ∨ arr2.length = 0 then []
  else
    let lower2 := arr2.map jsToLower
    arr1.filter (fun item => lower2.contains (jsToLower item))

/-- The `matchingKeywords` evidence object.  In the source a category's field
is assigned only inside `if (common.length > 0)`; since it is initialised to
`[]` and the guarded value is `common` itself, assigning `common`
unconditionally is the same function. -/
structure MatchingKeywords where
  interests : List String := []
  projects : List String := []
  themes : List String := []
  channels : List String := []
  deriving Repr, DecidableEq

/-- `Math.round`: round half toward positive infinity. -/
def jsRound (q : ℚ) : ℤ := ⌊q + 1/2⌋

/-- One weighted array-category contribution of `calculateMatchScore`:
`(|intersection| / max(|A|, |B|, 1)) × weight` when the intersection is
non-empty, else `0`. -/
def categoryScore (a b : List String) (weight : ℚ) : ℚ :=
  if 0 < (arrayIntersection a b).length then
    (((arrayIntersection a b).length : ℚ)
      / (max (a.length : ℚ) (max (b.length : ℚ) 1))) * weight
  else 0

/-- `['beginner', 'intermediate', 'expert'].indexOf(s)`: position on the
ordered scale, `-1` when `s` is not on it. -/
def levelIndex (s : String) : ℤ :=
  if s = "beginner" then 0
  else if s = "intermediate" then 1
  else if s = "expert" then 2
  else -1

/-- Expertise-level contribution (app.js 1281–1294): both fields truthy,
full 15 on equality, 7.5 when the `indexOf` positions differ by exactly 1
(note `indexOf` yields `-1` off the scale), else 0. -/
def expertiseScore (a b : String) : ℚ :=
  if a ≠ "" ∧ b ≠ "" then
    if a = b then 15
    else if (levelIndex a - levelIndex b).natAbs = 1 then 15/2
    else 0
  else 0

/-- Engagement-style contribution (app.js 1297–1301): 10 on exact match of
two truthy fields. -/
def engagementScore (a b : String) : ℚ :=
  if a ≠ "" ∧ b ≠ "" then (if a = b then 10 else 0) else 0

/-- `calculateMatchScore` (app.js 1242–1340): sum the six category
contributions, then `Math.min(100, Math.round(score * 100) / 100)`. -/
def calculateMatchScore (userPersona matchPersona : Persona) : ℚ × MatchingKeywords :=
  let score : ℚ :=
    categoryScore userPersona.core_interests matchPersona.core_interests 30 +
    categoryScore userPersona.projects_protocols matchPersona.projects_protocols 25 +
    expertiseScore userPersona.expertise_level matchPersona.expertise_level +
    engagementScore userPersona.engagement_style matchPersona.engagement_style +
    categoryScore userPersona.content_themes matchPersona.content_themes 15 +
    categoryScore userPersona.top_channels matchPersona.top_channels 5
  let finalScore : ℚ := min 100 ((jsRound (score * 100) : ℚ) / 100)
  (finalScore,
    { interests := arrayIntersection userPersona.core_interests matchPersona.core_interests,
      projects := arrayIntersection userPersona.projects_protocols matchPersona.projects_protocols,
      themes := arrayIntersection userPersona.content_themes matchPersona.content_themes,
      channels := arrayIntersection userPersona.top_channels matchPersona.top_channels })

/-! ## Profile/user stores and the candidate ranker, from `src/src/app.js`
(`getUserByFid`, `getPersonaByFid`, `getAllPersonasExcept`,
`getMatchingUsers` 1349–1486).

The source's single `getMatchingUsers` function binds a chain of `const`
intermediates; each is embedded as a named definition below
(`matchesWithScores`, `actualMatches`, … , `finalCandidates`) so the chain
stays recognisable.  The `sort(() => Math.random() - 0.5)` backfill shuffle
is an injected `shuffle` function (JS `sort` always yields a permutation of
the array); `sort((a, b) => b.score - a.score)` is the stable sort in which
`a` may precede `b` iff `b.score ≤ a.score`, i.e. `mergeSort` with that
comparison. -/

/-- A row of the `users` table (the fields `getMatchingUsers` reads). -/
structure UserRow where
  fid : Nat
  username : String := ""
  display_name : String := ""
  pfp_url : String := ""
  bio_text : String := ""
  follower_count : Nat := 0
  following_count : Nat := 0
  power_badge : Bool := false
  score : ℚ := 0
  deriving Repr, DecidableEq

/-- The relevant database tables, bundled. -/
structure Database where
  swipes : SwipeStore := []
  personas : List Persona := []
  users : List UserRow := []

/-- `getPersonaByFid`: unique persona row for a fid, if any. -/
def getPersonaByFid (personas : List Persona) (fid : Nat) : Option Persona :=
  personas.find? (fun p => p.farcaster_fid == fid)

/-- `getAllPersonasExcept`: all persona rows except the given fid's. -/
def getAllPersonasExcept (personas : List Persona) (fid : Nat) : List Persona :=
  personas.filter (fun p => p.farcaster_fid != fid)

/-- `getUserByFid`: unique user row for a fid, if any. -/
def getUserByFid (users : List UserRow) (fid : Nat) : Option UserRow :=
  users.find? (fun u => u.fid == fid)

/-- A candidate persona paired with its `calculateMatchScore` result. -/
abbrev ScoredCandidate := Persona × ℚ × MatchingKeywords

/-- The per-candidate object `getMatchingUsers` returns (app.js 1445–1460). -/
structure MatchedUser where
  fid : Nat
  username : String
  display_name : String
  pfp_url : String
  bio_text : String
  follower_count : Nat
  following_count : Nat
  power_badge : Bool
  score : ℚ
  match_score : ℚ
  matching_keywords : MatchingKeywords
  persona_summary : String
  expertise_level : String
  engagement_style : String
  deriving Repr, DecidableEq

/-- Pagination object of a ranking response. -/
structure RankPagination where
  page : Nat
  limit : Nat
  total : Nat
  totalPages : Nat
  deriving Repr, DecidableEq

/-- A ranking response: candidate list plus pagination. -/
structure RankResult where
  «matches» : List MatchedUser
  pagination : RankPagination
  deriving Repr, DecidableEq

/-- Builds the returned candidate object from a user row and a scored
candidate (app.js 1445–1460). -/
def mkMatchedUser (user : UserRow) (m : ScoredCandidate) : MatchedUser :=
  { fid := user.fid, username := user.username, display_name := user.display_name,
    pfp_url := user.pfp_url, bio_text := user.bio_text,
    follower_count := user.follower_count, following_count := user.following_count,
    power_badge := user.power_badge, score := user.score,
    match_score := m.2.1, matching_keywords := m.2.2,
    persona_summary := m.1.summary, expertise_level := m.1.expertise_level,
    engagement_style := m.1.engagement_style }

/-- The candidate universe (app.js 1362–1368): every persona except the
requesting user's, minus already-swiped fids. -/
def candidateUniverse (db : Database) (fid : Nat) : List Persona :=
  let swipedFids := getSwipedUserFids db.swipes fid
  (getAllPersonasExcept db.personas fid).filter
    (fun p => !(swipedFids.contains p.farcaster_fid))

/-- `matchesWithScores` (app.js 1383–1389): every candidate scored. -/
def matchesWithScores (db : Database) (fid : Nat) (up : Persona) : List ScoredCandidate :=
  (candidateUniverse db fid).map (fun persona => (persona, calculateMatchScore up persona))

/-- `actualMatches` (app.js 1392): candidates with score strictly positive. -/
def actualMatches (db : Database) (fid : Nat) (up : Persona) : List ScoredCandidate :=
  (matchesWithScores db fid up).filter (fun m => 0 < m.2.1)

/-- `actualMatches.sort((a, b) => b.score - a.score)` (app.js 1395). -/
def sortedMatches (db : Database) (fid : Nat) (up : Persona) : List ScoredCandidate :=
  (actualMatches db fid up).mergeSort (fun a b => decide (b.2.1 ≤ a.2.1))

/-- `paginatedMatches` before backfill (app.js 1398–1400):
`slice((page-1)*limit, (page-1)*limit + limit)`. -/
def paginatedMatches (db : Database) (fid : Nat) (up : Persona)
    (page limit : Nat) : List ScoredCandidate :=
  ((sortedMatches db fid up).drop ((page - 1) * limit)).take limit

/-- `nonMatchingPersonas` (app.js 1404–1416): score-0 candidates not among
`{fid} ∪ swiped ∪ already-selected`. -/
def nonMatchingCandidates (db : Database) (fid : Nat) (up : Persona)
    (page limit : Nat) : List ScoredCandidate :=
  let matchedFids := fid :: (getSwipedUserFids db.swipes fid
    ++ (paginatedMatches db fid up page limit).map (fun m => m.1.farcaster_fid))
  ((matchesWithScores db fid up).filter (fun m => m.2.1 = 0)).filter
    (fun m => !(matchedFids.contains m.1.farcaster_fid))

/-- The selected candidates after backfill (app.js 1403–1435): if the page
slice is short, append a shuffled slice of the score-0 pool, re-tagged with
score 0 and empty keywords. -/
def finalCandidates (shuffle : List ScoredCandidate → List ScoredCandidate)
    (db : Database) (fid : Nat) (up : Persona) (page limit : Nat) : List ScoredCandidate :=
  let pm := paginatedMatches db fid up page limit
  if pm.length < limit then
    let neededRandom := limit - pm.length
    pm ++ ((shuffle (nonMatchingCandidates db fid up page limit)).take neededRandom).map
      (fun m => (m.1, 0, ({} : MatchingKeywords)))
  else pm

/-- `totalCount` (app.js 1467–1472): positive-score matches plus score-0 pool. -/
def rankTotalCount (db : Database) (fid : Nat) (up : Persona) : Nat :=
  (actualMatches db fid up).length
    + ((matchesWithScores db fid up).filter (fun m => m.2.1 = 0)).length

/-- `getMatchingUsers` (app.js 1349–1486).  `fid = 0` models the JS falsy
check `!fid`; `Math.ceil(total / limit)` is `(total + limit - 1) / limit`
(equal for every `limit ≥ 1`; the route layer never passes 0).  Candidates
whose user-row lookup yields `null` are dropped by the final `filterMap`. -/
def getMatchingUsers (shuffle : List ScoredCandidate → List ScoredCandidate)
    (db : Database) (fid : Nat) (page : Nat := 1) (limit : Nat := 10) :
    Except String RankResult :=
  if fid = 0 then .error "Failed to get matching users: FID is required"
  else
    match getPersonaByFid db.personas fid with
    | none => .error
        "Failed to get matching users: User persona not found. Please create persona first."
    | some userPersona =>
      if (candidateUniverse db fid).length = 0 then
        .ok { «matches» := [],
              pagination := { page := page, limit := limit, total := 0, totalPages := 0 } }
      else
        .ok { «matches» :=
                ((finalCandidates shuffle db fid userPersona page limit).map (fun m =>
                  (getUserByFid db.users m.1.farcaster_fid).map
                    (fun user => mkMatchedUser user m))).filterMap id,
              pagination :=
                { page := page, limit := limit,
                  total := rankTotalCount db fid userPersona,
                  totalPages := (rankTotalCount db fid userPersona + limit - 1) / limit } }

/-- The numeric score of `calculateMatchScore` (used to state claims). -/
def scoreOf (up p : Persona) : ℚ := (calculateMatchScore up p).1

/-- Fixture persona sharing one interest, for the dropped-user scenario. -/
def plainPersona (n : Nat) : Persona := { farcaster_fid := n, core_interests := ["a"] }

/-- Fixture: user 1's persona scores positively against candidates 2 and 3,
but only candidate 2 has a row in the `users` table. -/
def missingUserDb : Database :=
  { swipes := [],
    personas := [plainPersona 1, plainPersona 2, plainPersona 3],
    users := [{ fid := 2 }] }

/-- Fixture persona with every category empty (scores 0 everywhere). -/
def zeroPersona (n : Nat) : Persona := { farcaster_fid := n }

/-- Fixture universe for the 3-matches-plus-50-unscored scenario: user 1,
three sharing candidates (2, 3, 4) and fifty empty candidates (10–59). -/
def rankFixtureDb : Database :=
  { swipes := [],
    personas := plainPersona 1 :: plainPersona 2 :: plainPersona 3 :: plainPersona 4 ::
      (List.range 50).map (fun i => zeroPersona (10 + i)),
    users := ({ fid := 2 } : UserRow) :: ({ fid := 3 } : UserRow)
      :: ({ fid := 4 } : UserRow)
      :: (List.range 50).map (fun i => ({ fid := 10 + i } : UserRow)) }

/-! ## Feed aggregator, from `src/src/services/feedService.js`.

The Neynar HTTP fetch is injected as an oracle (`CastFetcher`); `Date`
parsing is external, so a cast's `timestamp`/`created_at` fields hold the
parsed milliseconds, `none` when the field is absent or unparsable; the
base64/JSON cursor codec is external, so a cursor is carried as its decoded
payload — `FeedCursor.valid o t` stands for `base64(JSON {offset: o,
timestamp: t})` and `FeedCursor.invalid` for any token the decoder rejects. -/

/-- `MAX_FIDS_PER_CALL` (feedService.js 13). -/
def MAX_FIDS_PER_CALL : Nat := 100

/-- Engagement sub-object `cast.reactions`; array items are opaque and
`none` models an absent (`undefined`/`null`) field. -/
structure Reactions where
  likes : Option (List Unit) := none
  recasts : Option (List Unit) := none
  likes_count : Option Int := none
  recasts_count : Option Int := none
  deriving Repr, DecidableEq

/-- The `cast.replies` field: absent/falsy, an object with an optional
`count`, or an array. -/
inductive RepliesField where
  | absent
  | obj (count : Option Int)
  | arr (elems : List Unit)
  deriving Repr, DecidableEq

/-- A cast as this service reads it (hash, author fid, timestamps,
engagement).  Timestamp fields are pre-parsed milliseconds. -/
structure Cast where
  hash : Option String := none
  thread_hash : Option String := none
  author_fid : Option Nat := none
  timestamp : Option Int := none
  created_at : Option Int := none
  reactions : Option Reactions := none
  replies : RepliesField := .absent
  deriving Repr, DecidableEq

/-- The injected Neynar feed call: batch fids, optional viewer fid. -/
abbrev CastFetcher := List Nat → Option Nat → Except String (List Cast)

/-- `fetchCastsFromFids` (feedService.js 24–86): empty input short-circuits
to no casts; otherwise at most 100 fids are passed on, and a transport
failure is rethrown with the `Failed to fetch casts` prefix. -/
def fetchCastsFromFids (oracle : CastFetcher) (fids : List Nat)
    (viewerFid : Option Nat := none) : Except String (List Cast) :=
  if fids.length = 0 then .ok []
  else
    match oracle (fids.take MAX_FIDS_PER_CALL) viewerFid with
    | .ok r => .ok r
    | .error e => .error ("Failed to fetch casts: " ++ e)

/-- `parseCastTimestamp` (feedService.js 95–109): `timestamp` first, then
`created_at`, else epoch zero. -/
def parseCastTimestamp (cast : Cast) : Int :=
  match cast.timestamp with
  | some ts => ts
  | none =>
    match cast.created_at with
    | some ts => ts
    | none => 0

/-- The batch split (feedService.js 155–158): slices of 100 fids. -/
def chunkList (l : List Nat) : List (List Nat) :=
  if _h : l.length = 0 then []
  else l.take MAX_FIDS_PER_CALL :: chunkList (l.drop MAX_FIDS_PER_CALL)
termination_by l.length
decreasing_by
  simp only [List.length_drop, MAX_FIDS_PER_CALL]
  omega

/-- The authorization filter (feedService.js 188–211): keep only casts with
a truthy author fid that is a mutual connection. -/
def authorizedCasts (matchedFids : List Nat) (allCasts : List Cast) : List Cast :=
  allCasts.filter (fun cast =>
    match cast.author_fid with
    | none => false
    | some authorFid =>
      if authorFid = 0 then false
      else matchedFids.contains authorFid)

/-- `allCasts.sort((a, b) => timestampB - timestampA)` (feedService.js
221–226): stable sort, descending by parsed timestamp. -/
def sortCastsByTimestamp (casts : List Cast) : List Cast :=
  casts.mergeSort (fun a b => decide (parseCastTimestamp b ≤ parseCastTimestamp a))

/-- A JS string coerced through truthiness: `""` is falsy. -/
def truthyStr : Option String → Option String
  | some s => if s = "" then none else some s
  | none => none

/-- `cast.hash || cast.thread_hash`, then dropped when still falsy
(feedService.js 231–232). -/
def castKey (cast : Cast) : Option String :=
  match truthyStr cast.hash with
  | some h => some h
  | none => truthyStr cast.thread_hash

/-- Hash dedup with a seen-set, first occurrence wins (feedService.js
228–237); keyless casts are dropped. -/
def dedupeCasts (seen : List String) : List Cast → List Cast
  | [] => []
  | cast :: rest =>
    match castKey cast with
    | none => dedupeCasts seen rest
    | some h =>
      if seen.contains h then dedupeCasts seen rest
      else cast :: dedupeCasts (h :: seen) rest

/-- Engagement-counter normalization (feedService.js 241–288): an explicit
count from the API is authoritative; else fall back to the array length,
else 0; arrays are materialised as `[]` when absent. -/
def normalizeReactions : Option Reactions → Reactions
  | none => { likes := some [], recasts := some [],
              likes_count := some 0, recasts_count := some 0 }
  | some r =>
    { likes := some (r.likes.getD []),
      recasts := some (r.recasts.getD []),
      likes_count := some (match r.likes_count with
        | some c => c
        | none => match r.likes with
          | some l => (l.length : Int)
          | none => 0),
      recasts_count := some (match r.recasts_count with
        | some c => c
        | none => match r.recasts with
          | some l => (l.length : Int)
          | none => 0) }

/-- Reply-count normalization (feedService.js 290–303). -/
def normalizeReplies : RepliesField → RepliesField
  | .absent => .obj (some 0)
  | .obj (some c) => .obj (some c)
  | .arr l => .obj (some (l.length : Int))
  | .obj none => .obj (some 0)

/-- The per-cast normalization step (feedService.js 241–306); only the
engagement fields change. -/
def normalizeCast (cast : Cast) : Cast :=
  { cast with reactions := some (normalizeReactions cast.reactions),
              replies := normalizeReplies cast.replies }

/-- A pagination cursor, carried as its decoded payload (the base64/JSON
codec is external): `valid offset timestamp` is a decodable token,
`invalid` any undecodable one. -/
inductive FeedCursor where
  | valid (offset : Nat) (timestamp : Int)
  | invalid (raw : String)
  deriving Repr, DecidableEq

/-- Cursor decoding (feedService.js 309–319): absent or undecodable resets
to offset 0, never errors. -/
def cursorStartIndex : Option FeedCursor → Nat
  | none => 0
  | some (.invalid _) => 0
  | some (.valid offset _) => offset

/-- The merge/filter/sort/dedupe/normalize pipeline applied to the fetched
casts (feedService.js 185–306, in source order). -/
def processCasts (matchedFids : List Nat) (allCasts : List Cast) : List Cast :=
  (dedupeCasts [] (sortCastsByTimestamp (authorizedCasts matchedFids allCasts))).map
    normalizeCast

/-- Server-side pagination (feedService.js 308–333): slice
`[startIndex, startIndex + limit)`, `hasMore` when the end index is inside
the list, and a fresh cursor for the next offset when it is. -/
def paginateFeed (allCasts : List Cast) (limit : Nat) (cursor : Option FeedCursor)
    (now : Int) : List Cast × Bool × Option FeedCursor :=
  let startIndex := cursorStartIndex cursor
  let endIndex := startIndex + limit
  let paginatedCasts := (allCasts.drop startIndex).take limit
  (paginatedCasts, decide (endIndex < allCasts.length),
    if endIndex < allCasts.length then some (FeedCursor.valid endIndex now) else none)

/-- Pagination object of a feed response (feedService.js 337–343).  The
empty-feed early return omits `castsReturned`/`totalCastsAvailable`;
they default to 0 here. -/
structure FeedPagination where
  hasMore : Bool
  nextCursor : Option FeedCursor
  totalMatchedUsers : Nat
  castsReturned : Nat := 0
  totalCastsAvailable : Nat := 0
  deriving Repr, DecidableEq

/-- Metadata object of a feed response (feedService.js 344–349); the
empty-feed early return omits `batchesUsed`/`totalCastsFetched`. -/
structure FeedMetadata where
  matchedUsersCount : Nat
  apiCallsMade : Nat
  batchesUsed : Nat := 0
  totalCastsFetched : Nat := 0
  deriving Repr, DecidableEq

/-- A feed response. -/
structure FeedResult where
  casts : List Cast
  pagination : FeedPagination
  metadata : FeedMetadata
  deriving Repr, DecidableEq

/-- `getConnectedUsersFeed` (feedService.js 122–355).  With more than 100
connections each batch fetch is guarded by `.catch` and contributes `[]` on
failure; with at most 100 the single fetch's error propagates into the
function's own catch and is rethrown.  `Math.ceil(n / 100)` is
`(n + 99) / 100`. -/
def getConnectedUsersFeed (oracle : CastFetcher) (st : SwipeStore) (userFid : Nat)
    (limit : Nat := 25) (cursor : Option FeedCursor := none) (now : Int := 0) :
    Except String FeedResult :=
  let matchedFids := getUserMatches st userFid
  if matchedFids.length = 0 then
    .ok { casts := [],
          pagination := { hasMore := false, nextCursor := none, totalMatchedUsers := 0 },
          metadata := { matchedUsersCount := 0, apiCallsMade := 0 } }
  else
    let fetched : Except String (List Cast × Nat) :=
      if matchedFids.length > MAX_FIDS_PER_CALL then
        let batches := chunkList matchedFids
        .ok ((batches.map (fun batch =>
          match fetchCastsFromFids oracle batch (some userFid) with
          | .ok r => r
          | .error _ => [])).flatten, batches.length)
      else
        match fetchCastsFromFids oracle matchedFids (some userFid) with
        | .ok r => .ok (r, 1)
        | .error e => .error e
    match fetched with
    | .error e => .error ("Failed to get connected users feed: " ++ e)
    | .ok (rawCasts, apiCallsMade) =>
      let allCasts := processCasts matchedFids rawCasts
      let paged := paginateFeed allCasts limit cursor now
      .ok { casts := paged.1,
            pagination :=
              { hasMore := paged.2.1, nextCursor := paged.2.2,
                totalMatchedUsers := matchedFids.length,
                castsReturned := paged.1.length,
                totalCastsAvailable := allCasts.length },
            metadata :=
              { matchedUsersCount := matchedFids.length,
                apiCallsMade := apiCallsMade,
                batchesUsed := if matchedFids.length > MAX_FIDS_PER_CALL then
                    (matchedFids.length + MAX_FIDS_PER_CALL - 1) / MAX_FIDS_PER_CALL
                  else 1,
                totalCastsFetched := allCasts.length } }

/-- Options object of `getFeed`. -/
structure FeedOptions where
  limit : Option Int := none
  cursor : Option FeedCursor := none

/-- `getFeed` (feedService.js 367–374): clamp the requested limit into
`[1, 100]` (default 25) and delegate; no validation error exists. -/
def getFeed (oracle : CastFetcher) (st : SwipeStore) (userFid : Nat)
    (options : FeedOptions := {}) (now : Int := 0) : Except String FeedResult :=
  let limit := options.limit.getD 25
  let validLimit := min (max 1 limit) 100
  getConnectedUsersFeed oracle st userFid validLimit.toNat options.cursor now

/-- Fixture: 21 authorized casts with distinct hashes and strictly
descending timestamps, for the pagination round trip. -/
def rtRaw : List Cast := (List.range 21).map (fun i =>
  { hash := some (String.mk [Char.ofNat (65 + i)]),
    author_fid := some 1,
    timestamp := some (100 - (i : Int)) })

/-- Fixture store: users 1 and 2 are mutually connected. -/
def feedFixtureStore : SwipeStore :=
  [⟨1, 2, "like", 0, 0⟩, ⟨2, 1, "like", 0, 0⟩]

/-- Fixture oracle deliberately returning, besides a cast by connection 2,
a cast by non-connection 99 and an authorless cast. -/
def feedIntruderOracle : CastFetcher := fun _ _ =>
  .ok [{ hash := some "g", author_fid := some 2, timestamp := some 50 },
       { hash := some "b", author_fid := some 99, timestamp := some 60 },
       { hash := some "c", timestamp := some 70 }]

/-- Fixture oracle whose every call fails. -/
def failingOracle : CastFetcher := fun _ _ => .error "boom"

/-- Fixture store with 101 mutual connections of user 1 (two batches). -/
def bigStore : SwipeStore :=
  ((List.range 101).map (fun i => ⟨1, 2 + i, "like", 0, 0⟩))
    ++ ((List.range 101).map (fun i => ⟨2 + i, 1, "like", 0, 0⟩))

/-! ### Basic lemmas about the store -/

/-- After an upsert, the store holds a row for the pair carrying the new action. -/
theorem upsertSwipe_mem_self (st : SwipeStore) (u t : Nat) (a : String) (now : Nat) :
    ∃ r ∈ upsertSwipe st u t a now,
      r.user_fid = u ∧ r.target_fid = t ∧ r.action = a := by
  unfold upsertSwipe
  split
  · next h =>
    rw [List.any_eq_true] at h
    obtain ⟨r0, hr0, hp⟩ := h
    simp only [Bool.and_eq_true, beq_iff_eq] at hp
    refine ⟨if r0.user_fid == u && r0.target_fid == t then
      { r0 with action := a, updated_at := now } else r0, List.mem_map_of_mem _ hr0, ?_⟩
    simp [hp.1, hp.2]
  · exact ⟨⟨u, t, a, now, now⟩, by simp, rfl, rfl, rfl⟩

/-- Upserting one ordered pair preserves rows for every other ordered pair. -/
theorem upsertSwipe_mem_other (st : SwipeStore) (u t : Nat) (a : String) (now : Nat)
    {r : SwipeRow} (hr : r ∈ st) (hne : ¬ (r.user_fid = u ∧ r.target_fid = t)) :
    r ∈ upsertSwipe st u t a now := by
  unfold upsertSwipe
  split
  · have : (if r.user_fid == u && r.target_fid == t then
        { r with action := a, updated_at := now } else r) = r := by
      have : ¬ (r.user_fid == u && r.target_fid == t) = true := by
        simp only [Bool.and_eq_true, beq_iff_eq]
        exact hne
      simp [this]
    exact this ▸ List.mem_map_of_mem _ hr
  · exact List.mem_append_left _ hr

/-- `List.contains` agrees with list membership (lawful `BEq`). -/
theorem list_contains_true {α} [BEq α] [LawfulBEq α] {l : List α} {a : α} :
    l.contains a = true ↔ a ∈ l := by
  simp [List.contains]

/-- Membership characterisation of `getUserMatches`: `b` is a match of `a`
iff the store holds a like `a→b` and a like `b→a`. -/
theorem mem_getUserMatches (st : SwipeStore) (a b : Nat) :
    b ∈ getUserMatches st a ↔
      (∃ r ∈ st, r.user_fid = a ∧ r.target_fid = b ∧ r.action = "like") ∧
      (∃ r ∈ st, r.user_fid = b ∧ r.target_fid = a ∧ r.action = "like") := by
  simp only [getUserMatches]
  split
  · next h =>
    simp only [List.length_eq_zero] at h
    constructor
    · intro hb; simp at hb
    · rintro ⟨⟨r, hr, h1, h2, h3⟩, -⟩
      have hmem : r ∈ st.filter (fun r => r.user_fid == a && r.action == "like") :=
        List.mem_filter.2 ⟨hr, by simp [h1, h3]⟩
      rw [h] at hmem
      simp at hmem
  · constructor
    · intro hb
      rw [List.mem_map] at hb
      obtain ⟨r, hrf, hfid⟩ := hb
      rw [List.mem_filter] at hrf
      obtain ⟨hr, hcond⟩ := hrf
      simp only [Bool.and_eq_true, beq_iff_eq, list_contains_true] at hcond
      obtain ⟨⟨hin, hta⟩, hact⟩ := hcond
      rw [List.mem_map] at hin
      obtain ⟨r', hr'f, ht'⟩ := hin
      rw [List.mem_filter] at hr'f
      obtain ⟨hr', hcond'⟩ := hr'f
      simp only [Bool.and_eq_true, beq_iff_eq] at hcond'
      exact ⟨⟨r', hr', hcond'.1, by rw [ht', hfid], hcond'.2⟩,
        ⟨r, hr, hfid, hta, hact⟩⟩
    · rintro ⟨⟨r1, hr1, h11, h12, h13⟩, ⟨r2, hr2, h21, h22, h23⟩⟩
      rw [List.mem_map]
      refine ⟨r2, ?_, h21⟩
      rw [List.mem_filter]
      refine ⟨hr2, ?_⟩
      simp only [Bool.and_eq_true, beq_iff_eq, list_contains_true]
      refine ⟨⟨?_, h22⟩, h23⟩
      rw [h21, List.mem_map]
      exact ⟨r1, List.mem_filter.2 ⟨hr1, by simp [h11, h13]⟩, h12⟩

/-! ### Claim C1 -/

/-- C1: for all users `A ≠ B`, after `recordSwipe(A,B,like)` followed by
`recordSwipe(B,A,like)`, `checkIfMatched(A,B)` is true, `B` is in
`getUserMatches(A)`, and `A` is in `getUserMatches(B)`. -/
theorem mutual_like_creates_match (st : SwipeStore) (A B t1 t2 : Nat)
    (hne : A ≠ B) (st1 st2 : SwipeStore)
    (h1 : recordSwipe st A B "like" t1 = .ok st1)
    (h2 : recordSwipe st1 B A "like" t2 = .ok st2) :
    checkIfMatched st2 A B = true ∧
    B ∈ getUserMatches st2 A ∧ A ∈ getUserMatches st2 B := by
  rw [recordSwipe, if_neg (by simp), if_neg hne] at h1
  rw [recordSwipe, if_neg (by simp), if_neg (Ne.symm hne)] at h2
  have e1 : st1 = upsertSwipe st A B "like" t1 := by
    injection h1 with h; exact h.symm
  have e2 : st2 = upsertSwipe st1 B A "like" t2 := by
    injection h2 with h; exact h.symm
  obtain ⟨rAB, hmemAB, huAB, htAB, haAB⟩ := upsertSwipe_mem_self st A B "like" t1
  rw [← e1] at hmemAB
  obtain ⟨rBA, hmemBA, huBA, htBA, haBA⟩ := upsertSwipe_mem_self st1 B A "like" t2
  rw [← e2] at hmemBA
  have hAB2 : rAB ∈ st2 := by
    rw [e2]
    apply upsertSwipe_mem_other st1 B A "like" t2 hmemAB
    rintro ⟨hu, -⟩
    exact hne (huAB ▸ hu)
  refine ⟨?_, ?_, ?_⟩
  · rw [checkIfMatched, Bool.and_eq_true]
    constructor
    · rw [List.any_eq_true]
      exact ⟨rAB, hAB2, by simp [huAB, htAB, haAB]⟩
    · rw [List.any_eq_true]
      exact ⟨rBA, hmemBA, by simp [huBA, htBA, haBA]⟩
  · exact (mem_getUserMatches st2 A B).2
      ⟨⟨rAB, hAB2, huAB, htAB, haAB⟩, ⟨rBA, hmemBA, huBA, htBA, haBA⟩⟩
  · exact (mem_getUserMatches st2 B A).2
      ⟨⟨rBA, hmemBA, huBA, htBA, haBA⟩, ⟨rAB, hAB2, huAB, htAB, haAB⟩⟩

/-- Witness for C1 at the empty store with users 1 and 2. -/
theorem mutual_like_creates_match_witness :
    ∃ st1 st2, recordSwipe [] 1 2 "like" 0 = .ok st1 ∧
      recordSwipe st1 2 1 "like" 1 = .ok st2 ∧
      (checkIfMatched st2 1 2 = true ∧
        2 ∈ getUserMatches st2 1 ∧ 1 ∈ getUserMatches st2 2) :=
  ⟨_, _, rfl, rfl, mutual_like_creates_match [] 1 2 0 1 (by decide) _ _ rfl rfl⟩

/-! ### Claim C6 -/

/-- C6: if the store holds a like `A→B` and no like `B→A` (absent or reject),
then `B` is among the fids of `getRequestsSent(A)`, `A` is among the fids of
`getRequestsReceived(B)`, and neither is in the other's `getUserMatches`. -/
theorem one_sided_like_is_pending (st : SwipeStore) (A B : Nat)
    (h1 : ∃ r ∈ st, r.user_fid = A ∧ r.target_fid = B ∧ r.action = "like")
    (h2 : ∀ r ∈ st, r.user_fid = B → r.target_fid = A → r.action ≠ "like") :
    B ∈ (getRequestsSent st A).map (·.1) ∧
    A ∈ (getRequestsReceived st B).map (·.1) ∧
    B ∉ getUserMatches st A ∧ A ∉ getUserMatches st B := by
  obtain ⟨r0, hr0, hu0, ht0, ha0⟩ := h1
  have hnoBA : ¬ ∃ r ∈ st, r.user_fid = B ∧ r.target_fid = A ∧ r.action = "like" := by
    rintro ⟨r, hr, hu, ht, ha⟩
    exact h2 r hr hu ht ha
  have hBnotMatchA : B ∉ getUserMatches st A := by
    rw [mem_getUserMatches]
    rintro ⟨-, hback⟩
    exact hnoBA hback
  have hAnotMatchB : A ∉ getUserMatches st B := by
    rw [mem_getUserMatches]
    rintro ⟨hback, -⟩
    exact hnoBA hback
  have hr0sent : r0 ∈ st.filter (fun r => r.user_fid == A && r.action == "like") :=
    List.mem_filter.2 ⟨hr0, by simp [hu0, ha0]⟩
  have hr0recv : r0 ∈ st.filter (fun r => r.target_fid == B && r.action == "like") :=
    List.mem_filter.2 ⟨hr0, by simp [ht0, ha0]⟩
  refine ⟨?_, ?_, hBnotMatchA, hAnotMatchB⟩
  · simp only [getRequestsSent]
    rw [if_neg (by simp only [List.length_eq_zero]; exact List.ne_nil_of_mem hr0sent)]
    rw [List.mem_map]
    refine ⟨(r0.target_fid, r0.created_at), ?_, ht0⟩
    rw [List.mem_map]
    refine ⟨r0, ?_, rfl⟩
    rw [List.mem_filter]
    refine ⟨hr0sent, ?_⟩
    simp only [Bool.not_eq_true', ← Bool.not_eq_true, list_contains_true]
    rw [ht0]
    exact hBnotMatchA
  · simp only [getRequestsReceived]
    rw [if_neg (by simp only [List.length_eq_zero]; exact List.ne_nil_of_mem hr0recv)]
    rw [List.mem_map]
    refine ⟨(r0.user_fid, r0.created_at), ?_, hu0⟩
    rw [List.mem_map]
    refine ⟨r0, ?_, rfl⟩
    rw [List.mem_filter]
    refine ⟨hr0recv, ?_⟩
    rw [Bool.and_eq_true]
    constructor
    · simp only [Bool.not_eq_true', ← Bool.not_eq_true, list_contains_true]
      intro hmem
      rw [List.mem_map] at hmem
      obtain ⟨r', hr'f, hr'e⟩ := hmem
      rw [List.mem_filter] at hr'f
      obtain ⟨hr', hcond'⟩ := hr'f
      simp only [Bool.and_eq_true, beq_iff_eq, list_contains_true] at hcond'
      exact h2 r' hr' (hcond'.1.1) (hu0 ▸ hr'e) hcond'.1.2

    · simp only [Bool.not_eq_true', ← Bool.not_eq_true, list_contains_true]
      rw [hu0]
      exact hAnotMatchB

/-- Witness for C6: store holding exactly one like `1→2` and a reject `2→1`. -/
theorem one_sided_like_is_pending_witness :
    2 ∈ (getRequestsSent [⟨1, 2, "like", 0, 0⟩, ⟨2, 1, "reject", 0, 0⟩] 1).map (·.1) ∧
    1 ∈ (getRequestsReceived [⟨1, 2, "like", 0, 0⟩, ⟨2, 1, "reject", 0, 0⟩] 2).map (·.1) ∧
    2 ∉ getUserMatches [⟨1, 2, "like", 0, 0⟩, ⟨2, 1, "reject", 0, 0⟩] 1 ∧
    1 ∉ getUserMatches [⟨1, 2, "like", 0, 0⟩, ⟨2, 1, "reject", 0, 0⟩] 2 :=
  one_sided_like_is_pending [⟨1, 2, "like", 0, 0⟩, ⟨2, 1, "reject", 0, 0⟩] 1 2
    ⟨⟨1, 2, "like", 0, 0⟩, by decide, rfl, rfl, rfl⟩
    (by decide)


/-! ### Scorer symmetry (claim C3) -/

/-- Filtering through a composed key has the same length as filtering the
mapped list. -/
theorem length_filter_comp (l : List String) (p : String → Bool) :
    (l.filter (fun x => p (jsToLower x))).length
      = ((l.map jsToLower).filter p).length := by
  rw [List.filter_map, List.length_map]
  rfl

/-- For a duplicate-free list, counting members that occur in another list
is the cardinality of the intersection of the two element sets. -/
theorem length_filter_contains (la lb : List String) (ha : la.Nodup) :
    (la.filter (fun y => lb.contains y)).length = (la.toFinset ∩ lb.toFinset).card := by
  have h1 : (la.filter (fun y => lb.contains y)).toFinset.card
      = (la.filter (fun y => lb.contains y)).length := by
    rw [List.card_toFinset, (ha.filter _).dedup]
  rw [← h1, List.toFinset_filter]
  congr 1
  ext x
  simp only [Finset.mem_filter, Finset.mem_inter, List.mem_toFinset, list_contains_true]

/-- The two directions of `arrayIntersection` have equal length whenever
neither list holds two entries equal up to lowercasing. -/
theorem arrayIntersection_length_symm (a b : List String)
    (ha : (a.map jsToLower).Nodup) (hb : (b.map jsToLower).Nodup) :
    (arrayIntersection a b).length = (arrayIntersection b a).length := by
  by_cases h : a.length = 0 ∨ b.length = 0
  · rw [arrayIntersection, if_pos h, arrayIntersection, if_pos (Or.symm h)]
  · rw [arrayIntersection, if_neg h, arrayIntersection, if_neg (fun hc => h (Or.symm hc))]
    show (a.filter (fun item => (b.map jsToLower).contains (jsToLower item))).length
      = (b.filter (fun item => (a.map jsToLower).contains (jsToLower item))).length
    rw [length_filter_comp a, length_filter_comp b,
      length_filter_contains _ _ ha, length_filter_contains _ _ hb,
      Finset.inter_comm]

/-- A weighted array-category contribution is symmetric on duplicate-free
(lowercased) inputs. -/
theorem categoryScore_symm (a b : List String) (w : ℚ)
    (ha : (a.map jsToLower).Nodup) (hb : (b.map jsToLower).Nodup) :
    categoryScore a b w = categoryScore b a w := by
  rw [categoryScore, categoryScore]
  rw [arrayIntersection_length_symm a b ha hb]
  rw [show max (a.length : ℚ) (max (b.length : ℚ) 1)
      = max (b.length : ℚ) (max (a.length : ℚ) 1) from max_left_comm ..]

/-- The expertise-level contribution is symmetric. -/
theorem expertiseScore_symm (a b : String) : expertiseScore a b = expertiseScore b a := by
  by_cases hab : a = b
  · rw [hab]
  · have hn : (levelIndex a - levelIndex b).natAbs = (levelIndex b - levelIndex a).natAbs := by
      omega
    rw [expertiseScore, expertiseScore]
    by_cases ha : a = ""
    · by_cases hb : b = "" <;> simp [ha, hb]
    · by_cases hb : b = ""
      · simp [ha, hb]
      · rw [if_pos (⟨ha, hb⟩ : a ≠ "" ∧ b ≠ ""), if_pos (⟨hb, ha⟩ : b ≠ "" ∧ a ≠ ""),
          if_neg hab, if_neg (Ne.symm hab), hn]

/-- The engagement-style contribution is symmetric. -/
theorem engagementScore_symm (a b : String) :
    engagementScore a b = engagementScore b a := by
  by_cases hab : a = b
  · rw [hab]
  · rw [engagementScore, engagementScore]
    by_cases ha : a = ""
    · by_cases hb : b = "" <;> simp [ha, hb]
    · by_cases hb : b = ""
      · simp [ha, hb]
      · rw [if_pos (⟨ha, hb⟩ : a ≠ "" ∧ b ≠ ""), if_pos (⟨hb, ha⟩ : b ≠ "" ∧ a ≠ ""),
          if_neg hab, if_neg (Ne.symm hab)]

/-- C3 (amended): the numeric similarity score is symmetric for profiles in
which no category list holds two entries equal up to lowercasing.  (With
case-variant duplicates the raw claim fails, see
`calculateMatchScore_not_symmetric`.) -/
theorem calculateMatchScore_symm (p1 p2 : Persona)
    (h1i : (p1.core_interests.map jsToLower).Nodup)
    (h1p : (p1.projects_protocols.map jsToLower).Nodup)
    (h1t : (p1.content_themes.map jsToLower).Nodup)
    (h1c : (p1.top_channels.map jsToLower).Nodup)
    (h2i : (p2.core_interests.map jsToLower).Nodup)
    (h2p : (p2.projects_protocols.map jsToLower).Nodup)
    (h2t : (p2.content_themes.map jsToLower).Nodup)
    (h2c : (p2.top_channels.map jsToLower).Nodup) :
    (calculateMatchScore p1 p2).1 = (calculateMatchScore p2 p1).1 := by
  simp only [calculateMatchScore]
  rw [categoryScore_symm _ _ _ h1i h2i, categoryScore_symm _ _ _ h1p h2p,
    categoryScore_symm _ _ _ h1t h2t, categoryScore_symm _ _ _ h1c h2c,
    expertiseScore_symm, engagementScore_symm]

/-- Witness for the amended C3 at two concrete duplicate-free profiles. -/
theorem calculateMatchScore_symm_witness :
    (calculateMatchScore
        { farcaster_fid := 1, core_interests := ["DeFi", "nfts"],
          expertise_level := "beginner" }
        { farcaster_fid := 2, core_interests := ["defi"],
          expertise_level := "expert" }).1
      = (calculateMatchScore
        { farcaster_fid := 2, core_interests := ["defi"],
          expertise_level := "expert" }
        { farcaster_fid := 1, core_interests := ["DeFi", "nfts"],
          expertise_level := "beginner" }).1 :=
  calculateMatchScore_symm _ _ (by decide) (by decide) (by decide) (by decide)
    (by decide) (by decide) (by decide) (by decide)

/-- Counterexample to C3 as stated: with a case-variant duplicate
(`["a", "A"]` against `["a"]`) the score is 30 one way and 15 the other,
because `arrayIntersection` keeps both duplicates from its first argument. -/
theorem calculateMatchScore_not_symmetric :
    (calculateMatchScore { farcaster_fid := 1, core_interests := ["a", "A"] }
        { farcaster_fid := 2, core_interests := ["a"] }).1
    ≠ (calculateMatchScore { farcaster_fid := 2, core_interests := ["a"] }
        { farcaster_fid := 1, core_interests := ["a", "A"] }).1 := by
  have e1 : arrayIntersection ["a", "A"] ["a"] = ["a", "A"] := by decide
  have e2 : arrayIntersection ["a"] ["a", "A"] = ["a"] := by decide
  have e0 : arrayIntersection [] [] = ([] : List String) := by decide
  have hexp : expertiseScore "" "" = 0 := by rw [expertiseScore, if_neg (by decide)]
  have heng : engagementScore "" "" = 0 := by rw [engagementScore, if_neg (by decide)]
  simp only [calculateMatchScore, categoryScore, e1, e2, e0, hexp, heng]
  norm_num [jsRound]

/-! ### Claim C7: expertise-level contribution off the ordered scale -/

/-- C7 evaluation: with expertise levels `"beginner"` and `"novice"` (the
latter off the scale, `indexOf = -1`) the code awards the half weight 7.5 —
both as the isolated category contribution and through the full score of two
otherwise-empty personas — where the specified rule (half weight only for
levels adjacent on the scale) demands 0. -/
theorem expertise_offscale_half_weight :
    expertiseScore "beginner" "novice" = 15/2 ∧
    (calculateMatchScore { farcaster_fid := 1, expertise_level := "beginner" }
        { farcaster_fid := 2, expertise_level := "novice" }).1 = 15/2 := by
  have hbn : expertiseScore "beginner" "novice" = 15/2 := by
    rw [expertiseScore, if_pos ⟨by decide, by decide⟩, if_neg (by decide),
      if_pos (by decide)]
  have e0 : arrayIntersection [] [] = ([] : List String) := by decide
  have heng : engagementScore "" "" = 0 := by rw [engagementScore, if_neg (by decide)]
  refine ⟨hbn, ?_⟩
  simp only [calculateMatchScore, categoryScore, e0, hbn, heng]
  norm_num [jsRound]

/-! ### Claim C9: candidates with missing user rows shrink the page -/

/-- C9: there is a store state (`missingUserDb`) on which
`getMatchingUsers(1, page 1, pageSize 2)` reports `pagination.total = 2 ≥
pageSize` yet returns only 1 candidate: the candidate whose user-row lookup
is `null` is dropped after scoring, pagination and backfill, and nothing
refills the page.  The statement holds for every backfill shuffle because
the scored page is already full before backfill. -/
theorem rank_page_short_when_user_rows_missing
    (shuffle : List ScoredCandidate → List ScoredCandidate) :
    ∃ r, getMatchingUsers shuffle missingUserDb 1 1 2 = .ok r ∧
      r.«matches».length = 1 ∧ r.pagination.limit = 2 ∧ r.pagination.total = 2 := by
  have e : arrayIntersection ["a"] ["a"] = ["a"] := by decide
  have e0 : arrayIntersection [] [] = ([] : List String) := by decide
  have hexp : expertiseScore "" "" = 0 := by rw [expertiseScore, if_neg (by decide)]
  have heng : engagementScore "" "" = 0 := by rw [engagementScore, if_neg (by decide)]
  have hsc : ∀ n : Nat, calculateMatchScore (plainPersona 1) (plainPersona n)
      = (30, { interests := ["a"] }) := by
    intro n
    simp only [calculateMatchScore, plainPersona, categoryScore, e, e0, hexp, heng]
    norm_num [jsRound]
  have huniv : candidateUniverse missingUserDb 1 = [plainPersona 2, plainPersona 3] := by
    decide
  have hmws : matchesWithScores missingUserDb 1 (plainPersona 1)
      = [(plainPersona 2, 30, { interests := ["a"] }),
         (plainPersona 3, 30, { interests := ["a"] })] := by
    rw [matchesWithScores, huniv]
    simp [hsc]
  have ham : actualMatches missingUserDb 1 (plainPersona 1)
      = [(plainPersona 2, 30, { interests := ["a"] }),
         (plainPersona 3, 30, { interests := ["a"] })] := by
    rw [actualMatches, hmws]
    norm_num [List.filter_cons]
  have hsort : sortedMatches missingUserDb 1 (plainPersona 1)
      = [(plainPersona 2, 30, { interests := ["a"] }),
         (plainPersona 3, 30, { interests := ["a"] })] := by
    rw [sortedMatches, ham]
    apply List.mergeSort_of_sorted
    norm_num [List.pairwise_cons]
  have hpag : paginatedMatches missingUserDb 1 (plainPersona 1) 1 2
      = [(plainPersona 2, 30, { interests := ["a"] }),
         (plainPersona 3, 30, { interests := ["a"] })] := by
    rw [paginatedMatches, hsort]
    rfl
  have hfinal : finalCandidates shuffle missingUserDb 1 (plainPersona 1) 1 2
      = [(plainPersona 2, 30, { interests := ["a"] }),
         (plainPersona 3, 30, { interests := ["a"] })] := by
    rw [finalCandidates, hpag]
    simp
  have hl2 : getUserByFid missingUserDb.users 2 = some { fid := 2 } := by
    rw [missingUserDb]; rfl
  have hl3 : getUserByFid missingUserDb.users 3 = none := by
    rw [missingUserDb]; rfl
  have hup : getPersonaByFid missingUserDb.personas 1 = some (plainPersona 1) := by decide
  rw [getMatchingUsers, if_neg (by decide)]
  simp only [hup]
  rw [if_neg (by rw [huniv]; decide)]
  refine ⟨_, rfl, ?_, rfl, ?_⟩
  · rw [hfinal]
    simp [plainPersona, hl2, hl3]
  · show rankTotalCount missingUserDb 1 (plainPersona 1) = 2
    rw [rankTotalCount, ham, hmws]
    norm_num [List.filter_cons]

/-! ### Ranker lemmas for claim C5 -/

/-- An array-category contribution is never negative (for a non-negative
weight). -/
theorem categoryScore_nonneg (a b : List String) (w : ℚ) (hw : 0 ≤ w) :
    0 ≤ categoryScore a b w := by
  rw [categoryScore]
  split
  · apply mul_nonneg _ hw
    apply div_nonneg (Nat.cast_nonneg _)
    exact le_trans zero_le_one (le_trans (le_max_right _ _) (le_max_right _ _))
  · exact le_refl 0

/-- The expertise contribution is never negative. -/
theorem expertiseScore_nonneg (a b : String) : 0 ≤ expertiseScore a b := by
  rw [expertiseScore]
  split
  · split
    · norm_num
    · split <;> norm_num
  · exact le_refl 0

/-- The engagement contribution is never negative. -/
theorem engagementScore_nonneg (a b : String) : 0 ≤ engagementScore a b := by
  rw [engagementScore]
  split
  · split <;> norm_num
  · exact le_refl 0

/-- The final similarity score is never negative. -/
theorem calculateMatchScore_nonneg (u p : Persona) : 0 ≤ (calculateMatchScore u p).1 := by
  simp only [calculateMatchScore]
  refine le_min (by norm_num) ?_
  apply div_nonneg _ (by norm_num)
  have hsum : (0:ℚ) ≤
      categoryScore u.core_interests p.core_interests 30 +
      categoryScore u.projects_protocols p.projects_protocols 25 +
      expertiseScore u.expertise_level p.expertise_level +
      engagementScore u.engagement_style p.engagement_style +
      categoryScore u.content_themes p.content_themes 15 +
      categoryScore u.top_channels p.top_channels 5 := by
    have h1 := categoryScore_nonneg u.core_interests p.core_interests 30 (by norm_num)
    have h2 := categoryScore_nonneg u.projects_protocols p.projects_protocols 25 (by norm_num)
    have h3 := expertiseScore_nonneg u.expertise_level p.expertise_level
    have h4 := engagementScore_nonneg u.engagement_style p.engagement_style
    have h5 := categoryScore_nonneg u.content_themes p.content_themes 15 (by norm_num)
    have h6 := categoryScore_nonneg u.top_channels p.top_channels 5 (by norm_num)
    linarith
  have hfloor : (0:ℤ) ≤ jsRound ((categoryScore u.core_interests p.core_interests 30 +
      categoryScore u.projects_protocols p.projects_protocols 25 +
      expertiseScore u.expertise_level p.expertise_level +
      engagementScore u.engagement_style p.engagement_style +
      categoryScore u.content_themes p.content_themes 15 +
      categoryScore u.top_channels p.top_channels 5) * 100) := by
    rw [jsRound]
    apply Int.floor_nonneg.2
    have : (0:ℚ) ≤ (categoryScore u.core_interests p.core_interests 30 +
        categoryScore u.projects_protocols p.projects_protocols 25 +
        expertiseScore u.expertise_level p.expertise_level +
        engagementScore u.engagement_style p.engagement_style +
        categoryScore u.content_themes p.content_themes 15 +
        categoryScore u.top_channels p.top_channels 5) * 100 := by positivity
    linarith
  exact_mod_cast hfloor

/-- A list of personas with non-negative scores splits exactly into the
strictly-positive-score part and the zero-score part. -/
theorem length_filter_pos_add_zero (l : List Persona) (f : Persona → ℚ)
    (h : ∀ p ∈ l, 0 ≤ f p) :
    (l.filter (fun p => 0 < f p)).length + (l.filter (fun p => f p = 0)).length
      = l.length := by
  induction l with
  | nil => simp
  | cons a t ih =>
    have ha := h a (by simp)
    have ht : ∀ p ∈ t, 0 ≤ f p := fun p hp => h p (by simp [hp])
    have iht := ih ht
    by_cases hpos : 0 < f a
    · have hne : ¬ (f a = 0) := by intro he; rw [he] at hpos; exact lt_irrefl 0 hpos
      simp [List.filter_cons, hpos, hne]
      omega
    · have hz : f a = 0 := le_antisymm (not_lt.1 hpos) ha
      simp [List.filter_cons, hpos, hz]
      omega

/-- `actualMatches` is the positive-score slice of the universe, scored. -/
theorem actualMatches_eq (db : Database) (fid : Nat) (up : Persona) :
    actualMatches db fid up
      = ((candidateUniverse db fid).filter (fun p => 0 < scoreOf up p)).map
          (fun p => (p, calculateMatchScore up p)) := by
  rw [actualMatches, matchesWithScores, List.filter_map]
  rfl

/-- The score-0 slice of `matchesWithScores` is the zero-score slice of the
universe, scored. -/
theorem zeroMatches_eq (db : Database) (fid : Nat) (up : Persona) :
    (matchesWithScores db fid up).filter (fun m => m.2.1 = 0)
      = ((candidateUniverse db fid).filter (fun p => scoreOf up p = 0)).map
          (fun p => (p, calculateMatchScore up p)) := by
  rw [matchesWithScores, List.filter_map]
  rfl

/-- A found user row carries the fid it was looked up by. -/
theorem getUserByFid_fid {users : List UserRow} {f : Nat} {u : UserRow}
    (h : getUserByFid users f = some u) : u.fid = f := by
  have := List.find?_some h
  simpa using this

/-- When every selected candidate has a user row, the returned fids are
exactly the candidates' persona fids, in order. -/
theorem validMatches_map_fid (users : List UserRow) :
    ∀ (l : List ScoredCandidate),
      (∀ m ∈ l, (getUserByFid users m.1.farcaster_fid).isSome = true) →
      ((l.map (fun m => (getUserByFid users m.1.farcaster_fid).map
          (fun user => mkMatchedUser user m))).filterMap id).map MatchedUser.fid
        = l.map (fun m => m.1.farcaster_fid)
  | [], _ => by simp
  | m :: t, h => by
    obtain ⟨u, hu⟩ := Option.isSome_iff_exists.1 (h m (by simp))
    have ht := validMatches_map_fid users t (fun m hm => h m (by simp [hm]))
    have hfid : u.fid = m.1.farcaster_fid := getUserByFid_fid hu
    rw [List.map_cons, List.map_cons, hu, Option.map_some',
      @List.filterMap_cons_some _ _ id _ _ _ rfl, List.map_cons, ht]
    rw [show (mkMatchedUser u m).fid = u.fid from rfl, hfid]

/-- Counterpart of `validMatches_map_fid` for the match scores. -/
theorem validMatches_map_score (users : List UserRow) :
    ∀ (l : List ScoredCandidate),
      (∀ m ∈ l, (getUserByFid users m.1.farcaster_fid).isSome = true) →
      ((l.map (fun m => (getUserByFid users m.1.farcaster_fid).map
          (fun user => mkMatchedUser user m))).filterMap id).map MatchedUser.match_score
        = l.map (fun m => m.2.1)
  | [], _ => by simp
  | m :: t, h => by
    obtain ⟨u, hu⟩ := Option.isSome_iff_exists.1 (h m (by simp))
    have ht := validMatches_map_score users t (fun m hm => h m (by simp [hm]))
    rw [List.map_cons, List.map_cons, hu, Option.map_some',
      @List.filterMap_cons_some _ _ id _ _ _ rfl, List.map_cons, ht]
    rfl

/-- When every selected candidate has a user row, none is dropped. -/
theorem validMatches_length (users : List UserRow) (l : List ScoredCandidate)
    (h : ∀ m ∈ l, (getUserByFid users m.1.farcaster_fid).isSome = true) :
    ((l.map (fun m => (getUserByFid users m.1.farcaster_fid).map
        (fun user => mkMatchedUser user m))).filterMap id).length = l.length := by
  have := congrArg List.length (validMatches_map_fid users l h)
  simpa using this

/-- `List.contains` is false exactly on non-members (lawful `BEq`). -/
theorem list_contains_false {α} [BEq α] [LawfulBEq α] {l : List α} {a : α} :
    l.contains a = false ↔ a ∉ l := by
  simp [List.contains]

/-! ### Claim C5 -/

/-- C5: against a candidate universe of exactly 3 positively-scored and 50
zero-scored candidates (distinct persona fids, every candidate having a user
row), page 1 with pageSize 10 returns exactly 10 candidates — the first 3
being the scored matches in descending score order, the remaining 7 drawn
from the zero-score pool with no overlap — with `pagination.total = 53` and
`totalPages = 6 = ⌈53/10⌉`.  The backfill shuffle may be any
permutation-producing function. -/
theorem rank_three_matches_fifty_unscored
    (shuffle : List ScoredCandidate → List ScoredCandidate)
    (db : Database) (fid : Nat) (up : Persona)
    (hshuffle : ∀ l, List.Perm (shuffle l) l)
    (hfid : fid ≠ 0)
    (hup : getPersonaByFid db.personas fid = some up)
    (hnodup : (db.personas.map Persona.farcaster_fid).Nodup)
    (hpos : ((candidateUniverse db fid).filter (fun p => 0 < scoreOf up p)).length = 3)
    (hzero : ((candidateUniverse db fid).filter (fun p => scoreOf up p = 0)).length = 50)
    (husers : ∀ p ∈ candidateUniverse db fid,
      (getUserByFid db.users p.farcaster_fid).isSome = true) :
    ∃ r, getMatchingUsers shuffle db fid 1 10 = .ok r ∧
      r.«matches».length = 10 ∧
      List.Perm ((r.«matches».take 3).map MatchedUser.fid)
        (((candidateUniverse db fid).filter (fun p => 0 < scoreOf up p)).map
          Persona.farcaster_fid) ∧
      ((r.«matches».take 3).map MatchedUser.match_score).Pairwise (· ≥ ·) ∧
      (r.«matches».drop 3).length = 7 ∧
      (∀ x ∈ (r.«matches».drop 3).map MatchedUser.fid,
        x ∈ ((candidateUniverse db fid).filter (fun p => scoreOf up p = 0)).map
          Persona.farcaster_fid) ∧
      (∀ x ∈ (r.«matches».drop 3).map MatchedUser.fid,
        x ∉ (r.«matches».take 3).map MatchedUser.fid) ∧
      r.pagination.total = 53 ∧ r.pagination.totalPages = 6 := by
  have hscore_nonneg : ∀ p ∈ candidateUniverse db fid, 0 ≤ scoreOf up p :=
    fun p _ => calculateMatchScore_nonneg up p
  have hUlen : (candidateUniverse db fid).length = 53 := by
    have hpz := length_filter_pos_add_zero (candidateUniverse db fid) (scoreOf up)
      hscore_nonneg
    omega
  have hUsub : List.Sublist (candidateUniverse db fid) db.personas := by
    simp only [candidateUniverse, getAllPersonasExcept]
    exact (List.filter_sublist _).trans (List.filter_sublist _)
  have hUnodup : ((candidateUniverse db fid).map Persona.farcaster_fid).Nodup :=
    hnodup.sublist (hUsub.map Persona.farcaster_fid)
  have hU_not_self : ∀ p ∈ candidateUniverse db fid, p.farcaster_fid ≠ fid := by
    intro p hp
    simp only [candidateUniverse, getAllPersonasExcept, List.mem_filter] at hp
    simpa using hp.1.2
  have hU_not_swiped : ∀ p ∈ candidateUniverse db fid,
      p.farcaster_fid ∉ getSwipedUserFids db.swipes fid := by
    intro p hp
    simp only [candidateUniverse, List.mem_filter] at hp
    have h2 := hp.2
    rw [Bool.not_eq_eq_eq_not, Bool.not_true, list_contains_false] at h2
    exact h2
  -- the positive-score and zero-score fid sets cannot intersect
  have hdisj : ∀ x,
      x ∈ (((candidateUniverse db fid).filter (fun p => 0 < scoreOf up p)).map
        Persona.farcaster_fid) →
      x ∈ (((candidateUniverse db fid).filter (fun p => scoreOf up p = 0)).map
        Persona.farcaster_fid) → False := by
    intro x hxp hxz
    obtain ⟨q, hqf, hqx⟩ := List.mem_map.1 hxp
    obtain ⟨p, hpf, hpx⟩ := List.mem_map.1 hxz
    have hq := List.mem_filter.1 hqf
    have hp := List.mem_filter.1 hpf
    have hqp : q = p :=
      List.inj_on_of_nodup_map hUnodup hq.1 hp.1 (by rw [hqx, hpx])
    have hqpos : 0 < scoreOf up q := by simpa using hq.2
    have hpz : scoreOf up p = 0 := by simpa using hp.2
    rw [hqp, hpz] at hqpos
    exact lt_irrefl 0 hqpos
  -- stage characterisations
  have ham := actualMatches_eq db fid up
  have hamlen : (actualMatches db fid up).length = 3 := by
    rw [ham, List.length_map, hpos]
  have hzm := zeroMatches_eq db fid up
  have hzmlen : ((matchesWithScores db fid up).filter (fun m => m.2.1 = 0)).length = 50 := by
    rw [hzm, List.length_map, hzero]
  have hsmperm : List.Perm (sortedMatches db fid up) (actualMatches db fid up) :=
    List.mergeSort_perm _ _
  have hsmlen : (sortedMatches db fid up).length = 3 := by
    rw [hsmperm.length_eq, hamlen]
  have hpm : paginatedMatches db fid up 1 10 = sortedMatches db fid up := by
    rw [paginatedMatches, show (1 - 1) * 10 = 0 from rfl, List.drop_zero]
    exact List.take_of_length_le (by rw [hsmlen]; omega)
  have hsm_fid_perm : List.Perm
      ((sortedMatches db fid up).map (fun m => m.1.farcaster_fid))
      (((candidateUniverse db fid).filter (fun p => 0 < scoreOf up p)).map
        Persona.farcaster_fid) := by
    have h1 := hsmperm.map (fun m => m.1.farcaster_fid)
    rw [ham, List.map_map] at h1
    exact h1
  -- the score-0 pool survives the backfill exclusion filter untouched
  have hnmc : nonMatchingCandidates db fid up 1 10
      = (matchesWithScores db fid up).filter (fun m => m.2.1 = 0) := by
    rw [nonMatchingCandidates]
    apply List.filter_eq_self.2
    intro m hm
    rw [hzm] at hm
    obtain ⟨p, hpf, rfl⟩ := List.mem_map.1 hm
    have hp := List.mem_filter.1 hpf
    have hpz : scoreOf up p = 0 := by simpa using hp.2
    rw [Bool.not_eq_eq_eq_not, Bool.not_true, list_contains_false]
    simp only [List.mem_cons, List.mem_append]
    push_neg
    refine ⟨hU_not_self p hp.1, hU_not_swiped p hp.1, ?_⟩
    intro hmem
    rw [hpm] at hmem
    have hmem' := hsm_fid_perm.mem_iff.1 hmem
    exact hdisj _ hmem' (List.mem_map_of_mem Persona.farcaster_fid hpf)
  have hnmclen : (nonMatchingCandidates db fid up 1 10).length = 50 := by
    rw [hnmc, hzmlen]
  have hshuf_len : (shuffle (nonMatchingCandidates db fid up 1 10)).length = 50 := by
    rw [(hshuffle _).length_eq, hnmclen]
  have hfinal : finalCandidates shuffle db fid up 1 10
      = paginatedMatches db fid up 1 10
        ++ ((shuffle (nonMatchingCandidates db fid up 1 10)).take 7).map
            (fun m => (m.1, 0, ({} : MatchingKeywords))) := by
    simp only [finalCandidates]
    rw [if_pos (by rw [hpm, hsmlen]; omega)]
    rw [show 10 - (paginatedMatches db fid up 1 10).length = 7 by rw [hpm, hsmlen]]
  have hfinal_len : (finalCandidates shuffle db fid up 1 10).length = 10 := by
    rw [hfinal, List.length_append, hpm, hsmlen, List.length_map, List.length_take,
      hshuf_len]
    omega
  -- every selected candidate has a user row
  have hfinal_users : ∀ m ∈ finalCandidates shuffle db fid up 1 10,
      (getUserByFid db.users m.1.farcaster_fid).isSome = true := by
    intro m hm
    rw [hfinal] at hm
    rcases List.mem_append.1 hm with hm1 | hm2
    · rw [hpm] at hm1
      have hm1' := hsmperm.mem_iff.1 hm1
      rw [ham] at hm1'
      obtain ⟨p, hpf, rfl⟩ := List.mem_map.1 hm1'
      exact husers p (List.mem_filter.1 hpf).1
    · obtain ⟨q, hq, rfl⟩ := List.mem_map.1 hm2
      have hq' := (hshuffle _).mem_iff.1 (List.mem_of_mem_take hq)
      rw [hnmc, hzm] at hq'
      obtain ⟨p, hpf, rfl⟩ := List.mem_map.1 hq'
      exact husers p (List.mem_filter.1 hpf).1
  -- the returned field lists
  have hVM_fid : (((finalCandidates shuffle db fid up 1 10).map (fun m =>
        (getUserByFid db.users m.1.farcaster_fid).map
          (fun user => mkMatchedUser user m))).filterMap id).map MatchedUser.fid
      = (finalCandidates shuffle db fid up 1 10).map (fun m => m.1.farcaster_fid) :=
    validMatches_map_fid db.users _ hfinal_users
  have hVM_score : (((finalCandidates shuffle db fid up 1 10).map (fun m =>
        (getUserByFid db.users m.1.farcaster_fid).map
          (fun user => mkMatchedUser user m))).filterMap id).map MatchedUser.match_score
      = (finalCandidates shuffle db fid up 1 10).map (fun m => m.2.1) :=
    validMatches_map_score db.users _ hfinal_users
  have hVM_len : (((finalCandidates shuffle db fid up 1 10).map (fun m =>
        (getUserByFid db.users m.1.farcaster_fid).map
          (fun user => mkMatchedUser user m))).filterMap id).length = 10 := by
    rw [validMatches_length db.users _ hfinal_users, hfinal_len]
  -- open up the ranking call
  rw [getMatchingUsers, if_neg hfid]
  simp only [hup]
  rw [if_neg (by rw [hUlen]; omega)]
  refine ⟨_, rfl, hVM_len, ?_, ?_, ?_, ?_, ?_, by rw [rankTotalCount, hamlen, hzmlen],
    by rw [rankTotalCount, hamlen, hzmlen]⟩
  · -- first three fids are the scored matches
    rw [List.map_take, hVM_fid, hfinal, List.map_append,
      List.take_left' (by rw [List.length_map, hpm, hsmlen]), hpm]
    exact hsm_fid_perm
  · -- first three scores descend
    have hsorted : (sortedMatches db fid up).Pairwise
        (fun a b => decide (b.2.1 ≤ a.2.1) = true) := by
      apply List.sorted_mergeSort
      · intro a b c hab hbc
        simp only [decide_eq_true_eq] at *
        exact le_trans hbc hab
      · intro a b
        rcases le_total b.2.1 a.2.1 with h | h <;> simp [h]
    rw [List.map_take, hVM_score, hfinal, List.map_append,
      List.take_left' (by rw [List.length_map, hpm, hsmlen]), hpm, List.pairwise_map]
    exact hsorted.imp (fun h => by simpa using h)
  · -- seven backfill entries
    rw [List.length_drop, hVM_len]
  · -- backfill fids come from the zero-score pool
    intro x hx
    rw [List.map_drop, hVM_fid, hfinal, List.map_append,
      List.drop_left' (by rw [List.length_map, hpm, hsmlen]), List.map_map] at hx
    obtain ⟨q, hq, rfl⟩ := List.mem_map.1 hx
    have hq' := (hshuffle _).mem_iff.1 (List.mem_of_mem_take hq)
    rw [hnmc, hzm] at hq'
    obtain ⟨p, hpf, rfl⟩ := List.mem_map.1 hq'
    exact List.mem_map_of_mem Persona.farcaster_fid hpf
  · -- no overlap between the page's two parts
    intro x hx hx'
    rw [List.map_take, hVM_fid, hfinal, List.map_append,
      List.take_left' (by rw [List.length_map, hpm, hsmlen]), hpm] at hx'
    rw [List.map_drop, hVM_fid, hfinal, List.map_append,
      List.drop_left' (by rw [List.length_map, hpm, hsmlen]), List.map_map] at hx
    obtain ⟨q, hq, rfl⟩ := List.mem_map.1 hx
    have hq' := (hshuffle _).mem_iff.1 (List.mem_of_mem_take hq)
    rw [hnmc, hzm] at hq'
    obtain ⟨p, hpf, rfl⟩ := List.mem_map.1 hq'
    exact hdisj _ (hsm_fid_perm.mem_iff.1 hx')
      (List.mem_map_of_mem Persona.farcaster_fid hpf)

/-- Scoring two `plainPersona`s: one shared interest out of one, so the
interests category contributes its full weight 30 and nothing else scores. -/
theorem plainPersona_score (n : Nat) :
    calculateMatchScore (plainPersona 1) (plainPersona n)
      = (30, { interests := ["a"] }) := by
  have e : arrayIntersection ["a"] ["a"] = ["a"] := by decide
  have e0 : arrayIntersection [] [] = ([] : List String) := by decide
  have hexp : expertiseScore "" "" = 0 := by rw [expertiseScore, if_neg (by decide)]
  have heng : engagementScore "" "" = 0 := by rw [engagementScore, if_neg (by decide)]
  simp only [calculateMatchScore, plainPersona, categoryScore, e, e0, hexp, heng]
  norm_num [jsRound]

/-- Scoring a `plainPersona` against an empty `zeroPersona` yields 0. -/
theorem zeroPersona_score (n : Nat) :
    calculateMatchScore (plainPersona 1) (zeroPersona n) = (0, {}) := by
  have e : arrayIntersection ["a"] [] = ([] : List String) := by decide
  have e0 : arrayIntersection [] [] = ([] : List String) := by decide
  have hexp : expertiseScore "" "" = 0 := by rw [expertiseScore, if_neg (by decide)]
  have heng : engagementScore "" "" = 0 := by rw [engagementScore, if_neg (by decide)]
  simp only [calculateMatchScore, plainPersona, zeroPersona, categoryScore, e, e0,
    hexp, heng]
  norm_num [jsRound]

/-- Witness for C5 at the concrete fixture `rankFixtureDb` with the identity
shuffle. -/
theorem rank_three_matches_fifty_unscored_witness :
    ∃ r, getMatchingUsers (fun l => l) rankFixtureDb 1 1 10 = .ok r ∧
      r.«matches».length = 10 ∧
      List.Perm ((r.«matches».take 3).map MatchedUser.fid)
        (((candidateUniverse rankFixtureDb 1).filter
          (fun p => 0 < scoreOf (plainPersona 1) p)).map Persona.farcaster_fid) ∧
      ((r.«matches».take 3).map MatchedUser.match_score).Pairwise (· ≥ ·) ∧
      (r.«matches».drop 3).length = 7 ∧
      (∀ x ∈ (r.«matches».drop 3).map MatchedUser.fid,
        x ∈ ((candidateUniverse rankFixtureDb 1).filter
          (fun p => scoreOf (plainPersona 1) p = 0)).map Persona.farcaster_fid) ∧
      (∀ x ∈ (r.«matches».drop 3).map MatchedUser.fid,
        x ∉ (r.«matches».take 3).map MatchedUser.fid) ∧
      r.pagination.total = 53 ∧ r.pagination.totalPages = 6 := by
  have hs30 : ∀ n, scoreOf (plainPersona 1) (plainPersona n) = 30 := fun n => by
    rw [scoreOf, plainPersona_score]
  have hs0 : ∀ n, scoreOf (plainPersona 1) (zeroPersona n) = 0 := fun n => by
    rw [scoreOf, zeroPersona_score]
  have huniv : candidateUniverse rankFixtureDb 1
      = [plainPersona 2, plainPersona 3, plainPersona 4]
        ++ (List.range 50).map (fun i => zeroPersona (10 + i)) := by decide
  have hpos' : ((candidateUniverse rankFixtureDb 1).filter
      (fun p => 0 < scoreOf (plainPersona 1) p)).length = 3 := by
    rw [huniv, List.filter_append]
    have hA : [plainPersona 2, plainPersona 3, plainPersona 4].filter
        (fun p => 0 < scoreOf (plainPersona 1) p)
        = [plainPersona 2, plainPersona 3, plainPersona 4] := by
      apply List.filter_eq_self.2
      intro a ha
      simp only [List.mem_cons, List.not_mem_nil, or_false] at ha
      rcases ha with rfl | rfl | rfl <;>
        simp only [hs30, decide_eq_true_eq] <;> norm_num
    have hB : ((List.range 50).map (fun i => zeroPersona (10 + i))).filter
        (fun p => 0 < scoreOf (plainPersona 1) p) = [] := by
      apply List.filter_eq_nil_iff.2
      intro a ha
      obtain ⟨i, _, rfl⟩ := List.mem_map.1 ha
      simp only [hs0, decide_eq_true_eq]
      norm_num
    rw [hA, hB, List.length_append]
    rfl
  have hzero' : ((candidateUniverse rankFixtureDb 1).filter
      (fun p => scoreOf (plainPersona 1) p = 0)).length = 50 := by
    rw [huniv, List.filter_append]
    have hA : [plainPersona 2, plainPersona 3, plainPersona 4].filter
        (fun p => scoreOf (plainPersona 1) p = 0) = [] := by
      apply List.filter_eq_nil_iff.2
      intro a ha
      simp only [List.mem_cons, List.not_mem_nil, or_false] at ha
      rcases ha with rfl | rfl | rfl <;>
        simp only [hs30, decide_eq_true_eq] <;> norm_num
    have hB : ((List.range 50).map (fun i => zeroPersona (10 + i))).filter
        (fun p => scoreOf (plainPersona 1) p = 0)
        = (List.range 50).map (fun i => zeroPersona (10 + i)) := by
      apply List.filter_eq_self.2
      intro a ha
      obtain ⟨i, _, rfl⟩ := List.mem_map.1 ha
      simp only [hs0, decide_eq_true_eq]
    rw [hA, hB, List.length_append, List.length_map, List.length_range]
    rfl
  exact rank_three_matches_fifty_unscored (fun l => l) rankFixtureDb 1
    (plainPersona 1) (fun l => List.Perm.refl l) (by decide) (by decide) (by decide)
    hpos' hzero' (by decide)

/-! ### Feed lemmas -/

/-- Whatever `dedupeCasts` keeps was in its input. -/
theorem mem_of_dedupeCasts (c : Cast) : ∀ (seen : List String) (l : List Cast),
    c ∈ dedupeCasts seen l → c ∈ l
  | _, [], h => by simp [dedupeCasts] at h
  | seen, x :: rest, h => by
    rw [dedupeCasts] at h
    split at h
    · exact List.mem_cons_of_mem _ (mem_of_dedupeCasts c seen rest h)
    · split at h
      · exact List.mem_cons_of_mem _ (mem_of_dedupeCasts c seen rest h)
      · rcases List.mem_cons.1 h with rfl | h'
        · exact List.mem_cons_self _ _
        · exact List.mem_cons_of_mem _ (mem_of_dedupeCasts c _ rest h')

/-- Normalization does not touch a cast's author fid. -/
theorem normalizeCast_author (c : Cast) :
    (normalizeCast c).author_fid = c.author_fid := rfl

/-- Every cast surviving the processing pipeline has a truthy author fid
from the matched set. -/
theorem processCasts_author (matchedFids : List Nat) (l : List Cast) :
    ∀ c ∈ processCasts matchedFids l,
      ∃ a, c.author_fid = some a ∧ a ≠ 0 ∧ a ∈ matchedFids := by
  intro c hc
  rw [processCasts] at hc
  obtain ⟨c0, hc0, rfl⟩ := List.mem_map.1 hc
  have hdd := mem_of_dedupeCasts c0 [] _ hc0
  rw [sortCastsByTimestamp, List.mem_mergeSort] at hdd
  rw [authorizedCasts, List.mem_filter] at hdd
  obtain ⟨-, hpred⟩ := hdd
  cases ha : c0.author_fid with
  | none => rw [ha] at hpred; simp at hpred
  | some a =>
    rw [ha] at hpred
    have hpred' : (if a = 0 then false else matchedFids.contains a) = true := hpred
    by_cases h0 : a = 0
    · rw [if_pos h0] at hpred'; simp at hpred'
    · rw [if_neg h0] at hpred'
      exact ⟨a, by rw [normalizeCast_author, ha], h0, list_contains_true.1 hpred'⟩

/-- Helper: the feed call returns `ok` whenever the single-batch fetch (when
that path is taken) succeeds. -/
theorem getConnectedUsersFeed_ok (oracle : CastFetcher) (st : SwipeStore)
    (userFid limit : Nat) (cursor : Option FeedCursor) (now : Int)
    (h : (getUserMatches st userFid).length ≤ MAX_FIDS_PER_CALL →
      ∃ cs, fetchCastsFromFids oracle (getUserMatches st userFid) (some userFid)
        = .ok cs) :
    ∃ r, getConnectedUsersFeed oracle st userFid limit cursor now = .ok r := by
  simp only [getConnectedUsersFeed]
  split
  · exact ⟨_, rfl⟩
  · by_cases hgt : (getUserMatches st userFid).length > MAX_FIDS_PER_CALL
    · rw [if_pos hgt]
      exact ⟨_, rfl⟩
    · obtain ⟨cs, hcs⟩ := h (not_lt.1 hgt)
      rw [if_neg hgt, hcs]
      exact ⟨_, rfl⟩

/-! ### Claim C2: the feed never surfaces non-connection authors -/

/-- C2: every cast in a successful feed response is authored by a mutual
connection of the requesting user; casts without an author fid never
appear. -/
theorem feed_only_matched_authors (oracle : CastFetcher) (st : SwipeStore)
    (userFid limit : Nat) (cursor : Option FeedCursor) (now : Int) (r : FeedResult)
    (h : getConnectedUsersFeed oracle st userFid limit cursor now = .ok r) :
    ∀ c ∈ r.casts, ∃ a, c.author_fid = some a ∧ a ∈ getUserMatches st userFid := by
  simp only [getConnectedUsersFeed] at h
  split at h
  · obtain rfl : _ = r := by injection h
    intro c hc
    simp at hc
  · split at h
    · exact absurd h (by simp)
    · next cs apiCalls hfetch =>
      obtain rfl : _ = r := by injection h
      intro c hc
      simp only [paginateFeed] at hc
      have hc' : c ∈ processCasts (getUserMatches st userFid) cs :=
        List.mem_of_mem_drop (List.mem_of_mem_take hc)
      obtain ⟨a, ha, -, hmem⟩ := processCasts_author _ _ c hc'
      exact ⟨a, ha, hmem⟩

/-- Witness for C2: a fixture oracle returning a non-connection's cast and
an authorless cast alongside a connection's cast. -/
theorem feed_only_matched_authors_witness :
    ∃ r, getConnectedUsersFeed feedIntruderOracle feedFixtureStore 1 25 none 0
        = .ok r ∧
      ∀ c ∈ r.casts, ∃ a, c.author_fid = some a ∧
        a ∈ getUserMatches feedFixtureStore 1 := by
  obtain ⟨r, hr⟩ := getConnectedUsersFeed_ok feedIntruderOracle feedFixtureStore
    1 25 none 0 (fun _ => ⟨_, rfl⟩)
  exact ⟨r, hr, feed_only_matched_authors _ _ _ _ _ _ r hr⟩

/-! ### Claim C4: batch-failure absorption -/

/-- Counterexample to C4 as stated: with a single mutual connection (one
batch, ≤ 100 fids) a failing fetch is fatal — the request returns the
wrapped error instead of an empty feed. -/
theorem feed_single_batch_failure_fatal :
    getConnectedUsersFeed failingOracle feedFixtureStore 1 25 none 0
      = .error "Failed to get connected users feed: Failed to fetch casts: boom" :=
  rfl

/-- C4 (amended): with more than 100 mutual connections every batch fetch
failure is absorbed (the request still succeeds, failed batches contributing
no casts); with 1–100 connections — the single-call path — a fetch failure
is fatal and surfaces as the wrapped error. -/
theorem feed_batch_failure_absorption (oracle : CastFetcher) (st : SwipeStore)
    (userFid limit : Nat) (cursor : Option FeedCursor) (now : Int) :
    (MAX_FIDS_PER_CALL < (getUserMatches st userFid).length →
      ∃ r, getConnectedUsersFeed oracle st userFid limit cursor now = .ok r) ∧
    (∀ e, 0 < (getUserMatches st userFid).length →
      (getUserMatches st userFid).length ≤ MAX_FIDS_PER_CALL →
      oracle ((getUserMatches st userFid).take MAX_FIDS_PER_CALL) (some userFid)
        = .error e →
      getConnectedUsersFeed oracle st userFid limit cursor now
        = .error ("Failed to get connected users feed: Failed to fetch casts: " ++ e)) := by
  constructor
  · intro hgt
    exact getConnectedUsersFeed_ok oracle st userFid limit cursor now
      (fun hle => absurd hgt (not_lt.2 hle))
  · intro e hpos hle horacle
    simp only [getConnectedUsersFeed]
    rw [if_neg (by omega)]
    rw [if_neg (by omega)]
    rw [fetchCastsFromFids, if_neg (by omega), horacle]
    show Except.error ("Failed to get connected users feed: "
        ++ ("Failed to fetch casts: " ++ e)) = _
    rw [← String.append_assoc]
    congr 1

set_option maxRecDepth 4096 in
/-- Witness for the amended C4: all-failing fetches still produce a feed for
the 101-connection store, and fail the request for the single-pair store. -/
theorem feed_batch_failure_absorption_witness :
    (∃ r, getConnectedUsersFeed failingOracle bigStore 1 25 none 0 = .ok r) ∧
    getConnectedUsersFeed failingOracle feedFixtureStore 1 25 none 0
      = .error "Failed to get connected users feed: Failed to fetch casts: boom" :=
  ⟨(feed_batch_failure_absorption failingOracle bigStore 1 25 none 0).1 (by decide),
   (feed_batch_failure_absorption failingOracle feedFixtureStore 1 25 none 0).2
     "boom" (by decide) (by decide) rfl⟩

/-! ### Claim C8: pagination round trip -/

/-- Normalization does not touch a cast's hash key. -/
theorem filterMap_castKey_map_normalize : ∀ l : List Cast,
    (l.map normalizeCast).filterMap castKey = l.filterMap castKey
  | [] => rfl
  | c :: t => by
    rw [List.map_cons, List.filterMap_cons, List.filterMap_cons]
    rw [show castKey (normalizeCast c) = castKey c from rfl]
    rw [filterMap_castKey_map_normalize t]

/-- The keys surviving `dedupeCasts` are pairwise distinct and avoid the
seen-set. -/
theorem dedupeCasts_keys : ∀ (seen : List String) (l : List Cast),
    ((dedupeCasts seen l).filterMap castKey).Nodup ∧
      ∀ k ∈ (dedupeCasts seen l).filterMap castKey, k ∉ seen
  | seen, [] => by simp [dedupeCasts]
  | seen, c :: rest => by
    rw [dedupeCasts]
    split
    · exact dedupeCasts_keys seen rest
    · next h hk =>
      split
      · exact dedupeCasts_keys seen rest
      · next hs =>
        rw [Bool.not_eq_true] at hs
        obtain ⟨ih1, ih2⟩ := dedupeCasts_keys (h :: seen) rest
        rw [@List.filterMap_cons_some _ _ castKey _ _ _ hk]
        constructor
        · rw [List.nodup_cons]
          exact ⟨fun hmem => ih2 h hmem (by simp), ih1⟩
        · intro k hk'
          rcases List.mem_cons.1 hk' with rfl | hk''
          · exact list_contains_false.1 hs
          · intro hkseen
            exact ih2 k hk'' (List.mem_cons_of_mem _ hkseen)

/-- C8: on any list produced by the processing pipeline with more than 20
items, fetching with no cursor and limit 10 yields items 1–10 and a
`nextCursor` encoding offset 10; fetching again with that cursor yields
exactly items 11–20, and no hash key occurs in both pages. -/
theorem feed_pagination_round_trip (m : List Nat) (raw : List Cast)
    (cs : List Cast) (now1 now2 : Int)
    (hcs : cs = processCasts m raw) (h20 : 20 < cs.length) :
    (paginateFeed cs 10 none now1).1 = cs.take 10 ∧
    (paginateFeed cs 10 none now1).2.2 = some (FeedCursor.valid 10 now1) ∧
    (paginateFeed cs 10 (some (FeedCursor.valid 10 now1)) now2).1
      = (cs.drop 10).take 10 ∧
    ∀ k ∈ ((paginateFeed cs 10 none now1).1.filterMap castKey),
      k ∉ ((paginateFeed cs 10 (some (FeedCursor.valid 10 now1)) now2).1.filterMap
        castKey) := by
  have hnodup : (cs.filterMap castKey).Nodup := by
    rw [hcs, processCasts, filterMap_castKey_map_normalize]
    exact (dedupeCasts_keys [] _).1
  refine ⟨?_, ?_, ?_, ?_⟩
  · simp only [paginateFeed, cursorStartIndex]
    rw [List.drop_zero]
  · simp only [paginateFeed, cursorStartIndex]
    rw [if_pos (by omega)]
  · simp only [paginateFeed, cursorStartIndex]
  · intro k hk1 hk2
    simp only [paginateFeed, cursorStartIndex, List.drop_zero] at hk1 hk2
    have hk2' : k ∈ (cs.drop 10).filterMap castKey := by
      obtain ⟨c, hc, hck⟩ := List.mem_filterMap.1 hk2
      exact List.mem_filterMap.2 ⟨c, List.mem_of_mem_take hc, hck⟩
    have hsplit := hnodup
    rw [← List.take_append_drop 10 cs, List.filterMap_append,
      List.nodup_append] at hsplit
    exact hsplit.2.2 hk1 hk2'

/-- Witness for C8 at a concrete 21-item pipeline output. -/
theorem feed_pagination_round_trip_witness :
    (paginateFeed (processCasts [1] rtRaw) 10 none 5).1
        = (processCasts [1] rtRaw).take 10 ∧
    (paginateFeed (processCasts [1] rtRaw) 10 none 5).2.2
        = some (FeedCursor.valid 10 5) ∧
    (paginateFeed (processCasts [1] rtRaw) 10 (some (FeedCursor.valid 10 5)) 6).1
        = ((processCasts [1] rtRaw).drop 10).take 10 ∧
    ∀ k ∈ ((paginateFeed (processCasts [1] rtRaw) 10 none 5).1.filterMap castKey),
      k ∉ ((paginateFeed (processCasts [1] rtRaw) 10
        (some (FeedCursor.valid 10 5)) 6).1.filterMap castKey) := by
  have hauth : authorizedCasts [1] rtRaw = rtRaw := by decide
  have hsort : sortCastsByTimestamp rtRaw = rtRaw :=
    List.mergeSort_of_sorted (by decide)
  have hdd : dedupeCasts [] rtRaw = rtRaw := by decide
  have hlen : 20 < (processCasts [1] rtRaw).length := by
    rw [processCasts, hauth, hsort, hdd, List.length_map]
    decide
  exact feed_pagination_round_trip [1] rtRaw (processCasts [1] rtRaw) 5 6 rfl hlen

/-! ### Claim C10: `getFeed` silently clamps the limit -/

/-- C10: `getFeed` never rejects an out-of-range limit: it forwards the
clamped effective page size `min(max(1, limit), 100)` (25 when absent), so
any limit behaves exactly like its clamped value. -/
theorem getFeed_clamps_limit (oracle : CastFetcher) (st : SwipeStore)
    (userFid : Nat) (l : Int) (cursor : Option FeedCursor) (now : Int) :
    getFeed oracle st userFid { limit := some l, cursor := cursor } now
      = getConnectedUsersFeed oracle st userFid (min (max 1 l) 100).toNat cursor now ∧
    getFeed oracle st userFid { limit := none, cursor := cursor } now
      = getConnectedUsersFeed oracle st userFid 25 cursor now ∧
    1 ≤ (min (max 1 l) 100).toNat ∧ (min (max 1 l) 100).toNat ≤ 100 ∧
    getFeed oracle st userFid { limit := some l, cursor := cursor } now
      = getFeed oracle st userFid
          { limit := some (min (max 1 l) 100), cursor := cursor } now := by
  refine ⟨rfl, rfl, by omega, by omega, ?_⟩
  have h : min (max 1 (min (max 1 l) 100)) 100 = min (max 1 l) 100 := by omega
  simp only [getFeed, Option.getD_some]
  rw [h]

end Aura
